import Mathlib

/-!
Verification of the token-list pipeline.

Shallow embedding of the three scripts of the repository:

* `scripts/utils/web3.py` — generic retry with exponential backoff
  (`_retry_with_backoff`) and the per-field token-metadata fetch
  (`fetch_token_data_with_retry`).
* `scripts/validate_tokens.py` — per-record validator (`is_valid_address`,
  `is_url_image`, `is_valid_file`) and its `main` driver.
* `scripts/generate_tokenlists_file.py` — aggregation of the staged record
  files into one registry document.

Modelling conventions:

* A fallible Python callable that may be invoked repeatedly is modelled as a
  result oracle `Nat → Except E A` giving the outcome of the i-th invocation.
* Wall-clock sleeping is modelled by recording the slept delays in a list;
  float delays are modelled as exact rationals.
* Network effects (the HTTP HEAD probe of a logo URL) are modelled as an
  oracle `String → Option (Option String)`: `none` means the request itself
  raises, `some none` means a response without a content-type header (the
  subscript `r.headers["content-type"]` raises `KeyError`), and
  `some (some ct)` is a response with content-type `ct`.
* A staged record file is modelled as `Option RawRecord`: `none` means the
  file cannot be read/parsed (json5 raises), `some data` is the parsed object.
* Python string tests `s.startswith(p)` and `s.endswith(p)` are embedded by
  their slicing equivalents `s[:len(p)] == p` and `s[len(s)-len(p):] == p`,
  written with `String.take`/`String.drop`; Python's iteration over the
  characters of a string is iteration over `String.data`.
-/

/-! ## Retry executor: `_retry_with_backoff` (scripts/utils/web3.py, lines 47-83) -/

/-- The error raised when all retries fail:
`Exception(f"Failed to {operation_name} after {max_retries} attempts: {last_exception}") from last_exception`.
It carries the operation's name, the configured number of attempts, and the
last underlying exception (`none` when no attempt was ever made). -/
structure RetryError (E : Type) where
  operationName : String
  attempts : Int
  cause : Option E
deriving DecidableEq

/-- The loop `for attempt in range(max_retries)` of `_retry_with_backoff`.
`remaining` counts the iterations still to run, `attempt` is the index of the
next invocation, `delay` is `current_delay`, `lastExc` is `last_exception`.
Returns the outcome (value, or last exception on exhaustion), the number of
invocations of `func`, and the list of slept delays in order.
An iteration that fails sleeps `current_delay` and multiplies it by
`retry_backoff` only when `attempt < max_retries - 1`, i.e. when further
iterations remain. -/
def retryAux {E A : Type} (op : Nat → Except E A) (retryBackoff : ℚ) :
    Nat → Nat → ℚ → Option E → Except (Option E) A × Nat × List ℚ
  | 0, _, _, lastExc => (.error lastExc, 0, [])
  | remaining + 1, attempt, delay, _ =>
    match op attempt with
    | .ok v => (.ok v, 1, [])
    | .error e =>
      match remaining with
      | 0 => (.error (some e), 1, [])
      | r + 1 =>
        let rest := retryAux op retryBackoff (r + 1) (attempt + 1) (delay * retryBackoff) (some e)
        (rest.1, rest.2.1 + 1, delay :: rest.2.2)

/-- Embedding of `_retry_with_backoff(func, max_retries, retry_delay, retry_backoff, operation_name)`.
`max_retries` is an `Int` because the Python parameter may be any integer;
`range(max_retries)` is empty when it is not positive. The result is the
outcome together with the invocation count and the slept delays. -/
def retryWithBackoff {E A : Type} (op : Nat → Except E A) (maxRetries : Int)
    (retryDelay retryBackoff : ℚ) (operationName : String) :
    Except (RetryError E) A × Nat × List ℚ :=
  let out := retryAux op retryBackoff maxRetries.toNat 0 retryDelay none
  (match out.1 with
   | .ok v => .ok v
   | .error lastExc => .error ⟨operationName, maxRetries, lastExc⟩,
   out.2.1, out.2.2)

/-! ## Metadata fetcher: `fetch_token_data_with_retry` (scripts/utils/web3.py, lines 125-161) -/

/-- The constant `CHAIN_ID = 143` (scripts/utils/web3.py, line 14). -/
def CHAIN_ID : Int := 143

/-- The dict returned by `fetch_token_data_with_retry`. -/
structure TokenData where
  chainId : Int
  address : String
  name : String
  symbol : String
  decimals : Int
deriving DecidableEq

/-- Embedding of `fetch_token_data_with_retry(web3, address, max_retries, retry_delay, retry_backoff)`.
The three contract calls are modelled by the three oracles; each field is
fetched by its own `_retry_with_backoff` invocation (via
`fetch_token_name_with_retry`, `fetch_token_symbol_with_retry`,
`fetch_token_decimals_with_retry`, lines 164-257), sequentially, and the first
exhausted retry propagates. Besides the outcome we return how many times each
of the three oracles was invoked. -/
def fetchTokenDataWithRetry {E : Type} (nameCall symbolCall : Nat → Except E String)
    (decimalsCall : Nat → Except E Int) (address : String)
    (maxRetries : Int) (retryDelay retryBackoff : ℚ) :
    Except (RetryError E) TokenData × Nat × Nat × Nat :=
  match (retryWithBackoff nameCall maxRetries retryDelay retryBackoff "fetch name").1 with
  | .error err =>
    (.error err,
     (retryWithBackoff nameCall maxRetries retryDelay retryBackoff "fetch name").2.1, 0, 0)
  | .ok nm =>
    match (retryWithBackoff symbolCall maxRetries retryDelay retryBackoff "fetch symbol").1 with
    | .error err =>
      (.error err,
       (retryWithBackoff nameCall maxRetries retryDelay retryBackoff "fetch name").2.1,
       (retryWithBackoff symbolCall maxRetries retryDelay retryBackoff "fetch symbol").2.1, 0)
    | .ok sy =>
      match (retryWithBackoff decimalsCall maxRetries retryDelay retryBackoff "fetch decimals").1 with
      | .error err =>
        (.error err,
         (retryWithBackoff nameCall maxRetries retryDelay retryBackoff "fetch name").2.1,
         (retryWithBackoff symbolCall maxRetries retryDelay retryBackoff "fetch symbol").2.1,
         (retryWithBackoff decimalsCall maxRetries retryDelay retryBackoff "fetch decimals").2.1)
      | .ok de =>
        (.ok ⟨CHAIN_ID, address, nm, sy, de⟩,
         (retryWithBackoff nameCall maxRetries retryDelay retryBackoff "fetch name").2.1,
         (retryWithBackoff symbolCall maxRetries retryDelay retryBackoff "fetch symbol").2.1,
         (retryWithBackoff decimalsCall maxRetries retryDelay retryBackoff "fetch decimals").2.1)

/-! ## Facts about the retry loop -/

/-- On an operation that fails at every invocation, the loop body runs all its
iterations: starting with `r + 1` remaining iterations at index `attempt`, it
invokes the operation `r + 1` times, sleeps the `r` delays
`delay, delay*b, ..., delay*b^(r-1)`, and ends with the error of the last
invocation, index `attempt + r`. -/
theorem retryAux_always_fails {E A : Type} (f : Nat → E) (op : Nat → Except E A)
    (hop : ∀ i, op i = .error (f i)) (b : ℚ) :
    ∀ (r attempt : Nat) (delay : ℚ) (lastExc : Option E),
      retryAux op b (r + 1) attempt delay lastExc =
        (.error (some (f (attempt + r))), r + 1,
          (List.range r).map fun i => delay * b ^ i) := by
  intro r
  induction r with
  | zero =>
    intro attempt delay lastExc
    simp [retryAux, hop attempt]
  | succ r ih =>
    intro attempt delay lastExc
    rw [retryAux, hop attempt]
    simp only [ih (attempt + 1) (delay * b) (some (f attempt))]
    rw [show attempt + 1 + r = attempt + (r + 1) from by omega]
    rw [List.range_succ_eq_map, List.map_cons, List.map_map]
    simp only [Prod.mk.injEq]
    refine ⟨trivial, trivial, congrArg₂ List.cons (by norm_num) ?_⟩
    refine List.map_congr_left fun i _ => ?_
    simp only [Function.comp_apply, pow_succ]
    ring

/-- The retry loop never invokes the operation more often than the remaining
iteration count. -/
theorem retryAux_calls_le {E A : Type} (op : Nat → Except E A) (b : ℚ) :
    ∀ (r attempt : Nat) (delay : ℚ) (lastExc : Option E),
      (retryAux op b r attempt delay lastExc).2.1 ≤ r := by
  intro r
  induction r with
  | zero => intro _ _ _; simp [retryAux]
  | succ r ih =>
    intro attempt delay lastExc
    rw [retryAux]
    match op attempt with
    | .ok v => simp
    | .error e =>
      match r, ih with
      | 0, _ => simp
      | r + 1, ih =>
        simpa using Nat.add_le_add_right (ih (attempt + 1) (delay * b) (some e)) 1

/-- Any error produced by `_retry_with_backoff` names the operation it was
invoked for and reports the configured attempt count. -/
theorem retryWithBackoff_error_shape {E A : Type} (op : Nat → Except E A) (n : Int)
    (d b : ℚ) (operationName : String) (err : RetryError E)
    (h : (retryWithBackoff op n d b operationName).1 = .error err) :
    err.operationName = operationName ∧ err.attempts = n := by
  rcases hout : (retryAux op b n.toNat 0 d none).1 with lastExc | v
  · simp only [retryWithBackoff, hout, Except.error.injEq] at h
    rw [← h]
    exact ⟨rfl, rfl⟩
  · simp [retryWithBackoff, hout] at h

/-- The invocation count of `_retry_with_backoff` is bounded by the retry budget. -/
theorem retryWithBackoff_calls_le {E A : Type} (op : Nat → Except E A) (n : Int)
    (d b : ℚ) (operationName : String) :
    (retryWithBackoff op n d b operationName).2.1 ≤ n.toNat :=
  retryAux_calls_le op b n.toNat 0 d none

/-- C1: on an operation failing on every invocation with `max_retries = n ≥ 1`,
`_retry_with_backoff` invokes the operation exactly `n` times, sleeps exactly
`n - 1` times, the i-th slept delay (0-based) being
`retry_delay * retry_backoff ^ i`, and raises the exhaustion error carrying the
operation's name, the attempt count, and the last invocation's exception as
cause. -/
theorem retry_always_fail_spec {E A : Type} (f : Nat → E) (op : Nat → Except E A)
    (hop : ∀ i, op i = .error (f i)) (n : Int) (hn : 1 ≤ n) (d b : ℚ)
    (operationName : String) :
    retryWithBackoff op n d b operationName =
      (.error ⟨operationName, n, some (f (n.toNat - 1))⟩, n.toNat,
        (List.range (n.toNat - 1)).map fun i => d * b ^ i) := by
  obtain ⟨m, hm⟩ : ∃ m, n.toNat = m + 1 :=
    ⟨n.toNat - 1, by omega⟩
  unfold retryWithBackoff
  rw [hm, retryAux_always_fails f op hop b m 0 d none]
  simp

/-- C1 witness: an operation whose i-th invocation fails with error `i`, run
with `max_retries = 3`, `retry_delay = 1`, `retry_backoff = 2`: three
invocations, two sleeps of 1 and 2 seconds, and the final error carries the
last exception `2` and the operation name. -/
theorem retry_always_fail_spec_witness :
    retryWithBackoff (fun i => .error i : Nat → Except Nat Unit) 3 1 2 "fetch name" =
      (.error ⟨"fetch name", 3, some 2⟩, 3, [1, 2]) := by
  rw [retry_always_fail_spec (fun i => i) (fun i => .error i) (fun _ => rfl) 3
    (by norm_num) 1 2 "fetch name"]
  norm_num [show Int.toNat 3 = 3 from rfl, List.range_succ]

/-- C10: with `max_retries ≤ 0` the loop `for attempt in range(max_retries)`
runs no iteration: the operation is never invoked, nothing is slept, and the
exhaustion error is raised with `last_exception` still `None`. -/
theorem retry_nonpositive_budget {E A : Type} (op : Nat → Except E A) (n : Int)
    (hn : n ≤ 0) (d b : ℚ) (operationName : String) :
    retryWithBackoff op n d b operationName =
      (.error ⟨operationName, n, none⟩, 0, []) := by
  unfold retryWithBackoff
  rw [Int.toNat_of_nonpos hn]
  rfl

/-- C10 witness: `max_retries = 0` and `max_retries = -2` both fail without
invoking the operation, without sleeping, and with no carried cause. -/
theorem retry_nonpositive_budget_witness :
    retryWithBackoff (fun i => .error i : Nat → Except Nat Unit) 0 1 2 "fetch name" =
      (.error ⟨"fetch name", 0, none⟩, 0, []) ∧
    retryWithBackoff (fun i => .error i : Nat → Except Nat Unit) (-2) 1 2 "fetch name" =
      (.error ⟨"fetch name", -2, none⟩, 0, []) :=
  ⟨retry_nonpositive_budget _ 0 (by norm_num) 1 2 _,
   retry_nonpositive_budget _ (-2) (by norm_num) 1 2 _⟩

/-- C2: `fetch_token_data_with_retry` issues the three per-field fetches
sequentially, each under its own `_retry_with_backoff` budget. If a field's
retry is exhausted the whole operation fails with that field's error and the
later fields are not fetched; a field that succeeded is not re-fetched when a
later field fails (its invocation count is its own retry's count, fixed before
the later fetches run). On success the record is
`{chainId: CHAIN_ID, address: address, name, symbol, decimals}` with the three
fetched values. Every outcome's error names one of the three field fetches,
and each oracle is invoked at most `max_retries` times. -/
theorem fetch_token_data_spec {E : Type} (nameCall symbolCall : Nat → Except E String)
    (decimalsCall : Nat → Except E Int) (address : String) (n : Int) (d b : ℚ) :
    (∀ err, (retryWithBackoff nameCall n d b "fetch name").1 = .error err →
      fetchTokenDataWithRetry nameCall symbolCall decimalsCall address n d b =
        (.error err, (retryWithBackoff nameCall n d b "fetch name").2.1, 0, 0)) ∧
    (∀ nm err, (retryWithBackoff nameCall n d b "fetch name").1 = .ok nm →
      (retryWithBackoff symbolCall n d b "fetch symbol").1 = .error err →
      fetchTokenDataWithRetry nameCall symbolCall decimalsCall address n d b =
        (.error err, (retryWithBackoff nameCall n d b "fetch name").2.1,
          (retryWithBackoff symbolCall n d b "fetch symbol").2.1, 0)) ∧
    (∀ nm sy err, (retryWithBackoff nameCall n d b "fetch name").1 = .ok nm →
      (retryWithBackoff symbolCall n d b "fetch symbol").1 = .ok sy →
      (retryWithBackoff decimalsCall n d b "fetch decimals").1 = .error err →
      fetchTokenDataWithRetry nameCall symbolCall decimalsCall address n d b =
        (.error err, (retryWithBackoff nameCall n d b "fetch name").2.1,
          (retryWithBackoff symbolCall n d b "fetch symbol").2.1,
          (retryWithBackoff decimalsCall n d b "fetch decimals").2.1)) ∧
    (∀ nm sy de, (retryWithBackoff nameCall n d b "fetch name").1 = .ok nm →
      (retryWithBackoff symbolCall n d b "fetch symbol").1 = .ok sy →
      (retryWithBackoff decimalsCall n d b "fetch decimals").1 = .ok de →
      fetchTokenDataWithRetry nameCall symbolCall decimalsCall address n d b =
        (.ok ⟨CHAIN_ID, address, nm, sy, de⟩,
          (retryWithBackoff nameCall n d b "fetch name").2.1,
          (retryWithBackoff symbolCall n d b "fetch symbol").2.1,
          (retryWithBackoff decimalsCall n d b "fetch decimals").2.1)) ∧
    (∀ err, (fetchTokenDataWithRetry nameCall symbolCall decimalsCall address n d b).1 =
        .error err →
      err.operationName = "fetch name" ∨ err.operationName = "fetch symbol" ∨
        err.operationName = "fetch decimals") ∧
    (fetchTokenDataWithRetry nameCall symbolCall decimalsCall address n d b).2.1 ≤ n.toNat ∧
    (fetchTokenDataWithRetry nameCall symbolCall decimalsCall address n d b).2.2.1 ≤ n.toNat ∧
    (fetchTokenDataWithRetry nameCall symbolCall decimalsCall address n d b).2.2.2 ≤ n.toNat := by
  refine ⟨?_, ?_, ?_, ?_, ?_, ?_, ?_, ?_⟩
  · intro err h
    simp only [fetchTokenDataWithRetry, h]
  · intro nm err h1 h2
    simp only [fetchTokenDataWithRetry, h1, h2]
  · intro nm sy err h1 h2 h3
    simp only [fetchTokenDataWithRetry, h1, h2, h3]
  · intro nm sy de h1 h2 h3
    simp only [fetchTokenDataWithRetry, h1, h2, h3]
  · intro err h
    rcases h1 : (retryWithBackoff nameCall n d b "fetch name").1 with e1 | nm
    · simp only [fetchTokenDataWithRetry, h1, Except.error.injEq] at h
      exact Or.inl (h ▸ (retryWithBackoff_error_shape nameCall n d b _ e1 h1).1)
    rcases h2 : (retryWithBackoff symbolCall n d b "fetch symbol").1 with e2 | sy
    · simp only [fetchTokenDataWithRetry, h1, h2, Except.error.injEq] at h
      exact Or.inr (Or.inl (h ▸ (retryWithBackoff_error_shape symbolCall n d b _ e2 h2).1))
    rcases h3 : (retryWithBackoff decimalsCall n d b "fetch decimals").1 with e3 | de
    · simp only [fetchTokenDataWithRetry, h1, h2, h3, Except.error.injEq] at h
      exact Or.inr (Or.inr (h ▸ (retryWithBackoff_error_shape decimalsCall n d b _ e3 h3).1))
    · simp only [fetchTokenDataWithRetry, h1, h2, h3] at h
      cases h
  · rcases h1 : (retryWithBackoff nameCall n d b "fetch name").1 with e1 | nm
    · simp only [fetchTokenDataWithRetry, h1]
      exact retryWithBackoff_calls_le nameCall n d b _
    rcases h2 : (retryWithBackoff symbolCall n d b "fetch symbol").1 with e2 | sy
    · simp only [fetchTokenDataWithRetry, h1, h2]
      exact retryWithBackoff_calls_le nameCall n d b _
    rcases h3 : (retryWithBackoff decimalsCall n d b "fetch decimals").1 with e3 | de
    all_goals
      simp only [fetchTokenDataWithRetry, h1, h2, h3]
      exact retryWithBackoff_calls_le nameCall n d b _
  · rcases h1 : (retryWithBackoff nameCall n d b "fetch name").1 with e1 | nm
    · simp only [fetchTokenDataWithRetry, h1]
      exact Nat.zero_le _
    rcases h2 : (retryWithBackoff symbolCall n d b "fetch symbol").1 with e2 | sy
    · simp only [fetchTokenDataWithRetry, h1, h2]
      exact retryWithBackoff_calls_le symbolCall n d b _
    rcases h3 : (retryWithBackoff decimalsCall n d b "fetch decimals").1 with e3 | de
    all_goals
      simp only [fetchTokenDataWithRetry, h1, h2, h3]
      exact retryWithBackoff_calls_le symbolCall n d b _
  · rcases h1 : (retryWithBackoff nameCall n d b "fetch name").1 with e1 | nm
    · simp only [fetchTokenDataWithRetry, h1]
      exact Nat.zero_le _
    rcases h2 : (retryWithBackoff symbolCall n d b "fetch symbol").1 with e2 | sy
    · simp only [fetchTokenDataWithRetry, h1, h2]
      exact Nat.zero_le _
    rcases h3 : (retryWithBackoff decimalsCall n d b "fetch decimals").1 with e3 | de
    all_goals
      simp only [fetchTokenDataWithRetry, h1, h2, h3]
      exact retryWithBackoff_calls_le decimalsCall n d b _

/-- C2 witness: name and symbol always succeed, decimals always fails, with
`max_retries = 2`: the whole fetch fails with the decimals field's exhaustion
error (cause: the last decimals exception), the name and symbol oracles were
invoked once each (their budgets are untouched by the decimals failure), and
the decimals oracle twice. -/
theorem fetch_token_data_spec_witness :
    fetchTokenDataWithRetry (fun _ => .ok "Name") (fun _ => .ok "SYM")
        (fun i => .error i : Nat → Except Nat Int) "0xADDR" 2 1 2 =
      (.error ⟨"fetch decimals", 2, some 1⟩, 1, 1, 2) := by
  have h := (fetch_token_data_spec (fun _ => .ok "Name") (fun _ => .ok "SYM")
      (fun i => .error i) "0xADDR" 2 1 2).2.2.1 "Name" "SYM"
      ⟨"fetch decimals", 2, some 1⟩ rfl rfl rfl
  rw [h]
  rfl

/-! ## Record validator (scripts/validate_tokens.py) -/

/-- The characters accepted in the address payload:
`"0123456789ABCDEFabcdef"` (scripts/validate_tokens.py, line 24). -/
def HEX_CHARS : List Char := "0123456789ABCDEFabcdef".data

/-- Embedding of `is_valid_address(address)` (lines 19-25):
`address.startswith("0x") and len(address) == 42 and
all(c in "0123456789ABCDEFabcdef" for c in address[2:])`.
`startswith` is embedded as `address[:2] == "0x"`; the generator over the
characters of `address[2:]` iterates over `(address.drop 2).data`. -/
def is_valid_address (address : String) : Bool :=
  (address.take 2 == "0x") && (address.length == 42) &&
    (address.drop 2).data.all fun c => HEX_CHARS.contains c

/-- The allow-list `image_formats` of `is_url_image` (line 29). -/
def image_formats : List String :=
  ["image/png", "image/jpeg", "image/jpg", "image/svg+xml"]

/-- Embedding of `is_url_image(image_url)` (lines 28-31): performs `requests.head(image_url)`
and tests `r.headers["content-type"] in image_formats`. The HEAD probe is the
oracle `head`; a raising request (`none`) or a response without content-type
header (`some none`, which makes the subscript raise `KeyError`) makes the
function itself raise — there is no try/except here. -/
def is_url_image (head : String → Option (Option String)) (image_url : String) :
    Except Unit Bool :=
  match head image_url with
  | none => .error ()
  | some none => .error ()
  | some (some ct) => .ok (image_formats.contains ct)

/-- A parsed staged record file. Each required key may be absent; values carry
the types the pipeline stores (ints for `chainId`/`decimals`, strings
otherwise). -/
structure RawRecord where
  chainId : Option Int
  address : Option String
  name : Option String
  symbol : Option String
  decimals : Option Int
  logoURI : Option String
deriving DecidableEq

/-- The list `REQUIRED_FIELDS` (line 16). -/
def REQUIRED_FIELDS : List String :=
  ["chainId", "address", "name", "symbol", "decimals", "logoURI"]

/-- Membership test `field in data` for the six known keys. -/
def hasField (data : RawRecord) (field : String) : Bool :=
  if field = "chainId" then data.chainId.isSome
  else if field = "address" then data.address.isSome
  else if field = "name" then data.name.isSome
  else if field = "symbol" then data.symbol.isSome
  else if field = "decimals" then data.decimals.isSome
  else if field = "logoURI" then data.logoURI.isSome
  else false

/-- The comprehension `missing = [field for field in REQUIRED_FIELDS if field not in data]`
(line 46). -/
def missingFields (data : RawRecord) : List String :=
  REQUIRED_FIELDS.filter fun field => !(hasField data field)

/-- The reason a file is reported invalid, in the order the checks appear in
`is_valid_file` (spec names: ParseError, MissingField, WrongChain,
InvalidAddress, UnreachableOrWrongTypeLogo (content-type case), and
DecimalsOutOfRange). -/
inductive ValidationFailure where
  | readFailed
  | missingField (fields : List String)
  | wrongChain
  | invalidAddress
  | notImage
  | badDecimals
deriving DecidableEq

/-- Embedding of `is_valid_file(filepath)` (lines 34-70). The file argument is the parse
outcome of the staged file (`none`: `json5.load` raised, which is caught and
reported). The checks run in source order, returning at the first failure:
missing fields, then `chainId != 143`, then `is_valid_address`, then
`is_url_image`, then the decimals range. A raise inside `is_url_image`
propagates (`.error ()`), as nothing catches it. Past the missing-fields check
every field is present, so the `getD` defaults are never the value examined. -/
def is_valid_file (head : String → Option (Option String)) (file : Option RawRecord) :
    Except Unit (Option ValidationFailure) :=
  match file with
  | none => .ok (some .readFailed)
  | some data =>
    if missingFields data ≠ [] then .ok (some (.missingField (missingFields data)))
    else if data.chainId ≠ some 143 then .ok (some .wrongChain)
    else if !(is_valid_address (data.address.getD "")) then .ok (some .invalidAddress)
    else
      match is_url_image head (data.logoURI.getD "") with
      | .error e => .error e
      | .ok img =>
        if !img then .ok (some .notImage)
        else if data.decimals.getD 0 < 6 ∨ data.decimals.getD 0 > 36 then
          .ok (some .badDecimals)
        else .ok none

/-! ## Filename ordering: Python `sorted` on strings

Python compares strings lexicographically by code point. `charListLt` is that
strict order on the code-point sequences; `strLe` is the corresponding
non-strict order used to model `sorted(os.listdir(base_dir))`. -/

/-- Strict lexicographic order on code-point sequences, as Python compares
strings. -/
def charListLt : List Char → List Char → Bool
  | [], [] => false
  | [], _ :: _ => true
  | _ :: _, [] => false
  | a :: as, b :: bs =>
    if a.toNat < b.toNat then true
    else if b.toNat < a.toNat then false
    else charListLt as bs

/-- Holds when `a` sorts no later than `b` (Python `not (b < a)`). -/
def strLe (a b : String) : Prop := charListLt b.data a.data = false

instance : DecidableRel strLe := fun _ _ =>
  inferInstanceAs (Decidable (_ = false))

/-- Python `s.endswith(suffix)`, embedded as `s[len(s)-len(suffix):] == suffix`
(for `len(s) < len(suffix)` the truncated subtraction keeps the whole string,
which can then never equal the longer suffix, as in Python). -/
def endswith (s suffix : String) : Bool :=
  s.drop (s.length - suffix.length) == suffix

/-- The file list both scripts build (validate_tokens.py lines 79-81,
generate_tokenlists_file.py lines 21-23):
`[f for f in sorted(os.listdir(base_dir)) if f.endswith(".json") or f.endswith(".jsonc")]`.
`names` is the directory listing in whatever order the filesystem returns it. -/
def jsonFiles (names : List String) : List String :=
  (List.insertionSort strLe names).filter fun f =>
    endswith f ".json" || endswith f ".jsonc"

/-- The report printed for one validated file: `True` exactly when
`is_valid_file` returned `True` (and hence `✅ filename is valid.` was
printed). -/
def validation_report (res : Except Unit (Option ValidationFailure)) : Bool :=
  match res with
  | .ok none => true
  | _ => false

/-- The `for filename in json_files:` loop of validate_tokens.py `main`
(lines 87-93). `content` maps a filename to its parse outcome. Returns the
process exit status and the per-file reports in print order. An exception
escaping `is_valid_file` aborts the loop (and the process, with a traceback
and exit status 1); files after the raising one are neither validated nor
reported. -/
def runValidation (head : String → Option (Option String))
    (content : String → Option RawRecord) : List String → Int × List (String × Bool)
  | [] => (0, [])
  | filename :: rest =>
    match is_valid_file head (content filename) with
    | .error _ => (1, [])
    | .ok failure =>
      let next := runValidation head content rest
      (next.1, (filename, failure.isNone) :: next.2)

/-- Embedding of `main()` of validate_tokens.py (lines 73-93). `dir` is `none` when the
`mainnet` directory does not exist (`sys.exit(1)`), otherwise the directory
listing. No JSON files: `sys.exit(0)` before the loop. Otherwise the loop runs
and the process ends with status 0 (validation failures only print messages;
`main` sets no exit code for them). -/
def validate_main (head : String → Option (Option String))
    (dir : Option (List String)) (content : String → Option RawRecord) :
    Int × List (String × Bool) :=
  match dir with
  | none => (1, [])
  | some names =>
    if (jsonFiles names).isEmpty then (0, [])
    else runValidation head content (jsonFiles names)

/-! ## Aggregator (scripts/generate_tokenlists_file.py) -/

/-- The `version` object of the output document (line 46). -/
structure RegistryVersion where
  major : Int
  minor : Int
  patch : Int
deriving DecidableEq

/-- The output registry document, fields in the order the script writes them
(lines 40-47): name, logoURI, keywords, timestamp, tokens, version. The token
type is a parameter: the aggregator copies parsed records verbatim. -/
structure Registry (T : Type) where
  name : String
  logoURI : String
  keywords : List String
  timestamp : String
  tokens : List T
  version : RegistryVersion
deriving DecidableEq

/-- The token-collection loop (lines 29-38): parse each file in order,
returning the offending filename at the first file whose parse raises
(`return False`), else the token list in file order. -/
def collectTokens {T : Type} (content : String → Option T) :
    List String → Except String (List T)
  | [] => .ok []
  | filename :: rest =>
    match content filename with
    | none => .error filename
    | some token => (collectTokens content rest).map fun toks => token :: toks

/-- The observable outcome of generate_tokenlists_file.py `main()`: directory
missing (`sys.exit(1)`), nothing to do (`sys.exit(0)`, no output file), a
parse failure naming the offending file (`return False`, no output file), or
the written registry document. -/
inductive GenResult (T : Type) where
  | fatalNoDir
  | nothingToDo
  | readFailure (file : String)
  | written (registry : Registry T)
deriving DecidableEq

/-- Fixed output fields (lines 41-43, 46). -/
def TOKENLIST_NAME : String := "Monad Mainnet"

/-- Fixed logo of the output document (line 42). -/
def TOKENLIST_LOGO : String :=
  "https://raw.githubusercontent.com/monad-crypto/token-list/refs/heads/main/assets/monad.svg"

/-- Fixed keywords of the output document (line 43). -/
def TOKENLIST_KEYWORDS : List String := ["monad mainnet"]

/-- Fixed version of the output document (line 46). -/
def TOKENLIST_VERSION : RegistryVersion := ⟨0, 0, 1⟩

/-- Embedding of `main()` of generate_tokenlists_file.py (lines 15-58). `now` is the
ISO-8601 timestamp `datetime.now(timezone.utc).isoformat()` taken at build
time. -/
def generate_main {T : Type} (dir : Option (List String))
    (content : String → Option T) (now : String) : GenResult T :=
  match dir with
  | none => .fatalNoDir
  | some names =>
    if (jsonFiles names).isEmpty then .nothingToDo
    else
      match collectTokens content (jsonFiles names) with
      | .error f => .readFailure f
      | .ok tokens =>
        .written ⟨TOKENLIST_NAME, TOKENLIST_LOGO, TOKENLIST_KEYWORDS, now, tokens,
          TOKENLIST_VERSION⟩

/-! ## The filename order is a linear order -/

/-- Characters with equal code points are equal. -/
theorem char_eq_of_toNat_eq {a b : Char} (h : a.toNat = b.toNat) : a = b :=
  Char.eq_of_val_eq (UInt32.eq_of_toBitVec_eq (BitVec.eq_of_toNat_eq h))

/-- One-step unfolding of `charListLt` on two nonempty sequences. -/
theorem charListLt_cons (a b : Char) (as bs : List Char) :
    charListLt (a :: as) (b :: bs) =
      (decide (a.toNat < b.toNat) || (decide (a.toNat = b.toNat) && charListLt as bs)) := by
  simp only [charListLt]
  rcases Nat.lt_trichotomy a.toNat b.toNat with h | h | h
  · simp [h]
  · simp [h]
  · simp [h, Nat.lt_asymm h, (Nat.ne_of_lt h).symm]

/-- The order `charListLt` is transitive. -/
theorem charListLt_trans : ∀ {x y z : List Char},
    charListLt x y = true → charListLt y z = true → charListLt x z = true
  | [], [], _, h1, _ => by simp [charListLt] at h1
  | [], _ :: _, [], _, h2 => by simp [charListLt] at h2
  | [], _ :: _, _ :: _, _, _ => by simp [charListLt]
  | _ :: _, [], _, h1, _ => by simp [charListLt] at h1
  | _ :: _, _ :: _, [], _, h2 => by simp [charListLt] at h2
  | a :: as, b :: bs, c :: cs, h1, h2 => by
    simp only [charListLt_cons, Bool.or_eq_true, Bool.and_eq_true, decide_eq_true_eq]
      at h1 h2 ⊢
    rcases h1 with h1 | ⟨h1e, h1r⟩ <;> rcases h2 with h2 | ⟨h2e, h2r⟩
    · exact Or.inl (by omega)
    · exact Or.inl (by omega)
    · exact Or.inl (by omega)
    · exact Or.inr ⟨by omega, charListLt_trans h1r h2r⟩

/-- Sequences neither of which precedes the other are equal. -/
theorem charListLt_eq_of_not_lt : ∀ {x y : List Char},
    charListLt x y = false → charListLt y x = false → x = y
  | [], [], _, _ => rfl
  | [], _ :: _, h1, _ => by simp [charListLt] at h1
  | _ :: _, [], _, h2 => by simp [charListLt] at h2
  | a :: as, b :: bs, h1, h2 => by
    simp only [charListLt_cons, Bool.or_eq_false_iff, Bool.and_eq_false_iff,
      decide_eq_false_iff_not] at h1 h2
    have he : a.toNat = b.toNat := by omega
    have h1r : charListLt as bs = false := by
      rcases h1.2 with h | h
      · exact absurd he (by simpa using h)
      · exact h
    have h2r : charListLt bs as = false := by
      rcases h2.2 with h | h
      · exact absurd he.symm (by simpa using h)
      · exact h
    rw [char_eq_of_toNat_eq he, charListLt_eq_of_not_lt h1r h2r]

/-- A sequence never precedes itself. -/
theorem charListLt_irrefl : ∀ l : List Char, charListLt l l = false
  | [] => rfl
  | a :: as => by
    simp [charListLt_cons, charListLt_irrefl as]

/-- At most one of two distinct sequences precedes the other. -/
theorem charListLt_asymm {x y : List Char} (h : charListLt x y = true) :
    charListLt y x = false := by
  rcases hyx : charListLt y x with _ | _
  · rfl
  · have hxx := charListLt_trans h hyx
    rw [charListLt_irrefl x] at hxx
    exact hxx.symm

instance : IsTotal String strLe :=
  ⟨fun a b => by
    unfold strLe
    rcases h : charListLt b.data a.data with _ | _
    · exact Or.inl rfl
    · exact Or.inr (charListLt_asymm h)⟩

instance : IsTrans String strLe :=
  ⟨fun a b c hab hbc => by
    unfold strLe at hab hbc ⊢
    rcases hca : charListLt c.data a.data with _ | _
    · rfl
    · rcases habd : charListLt a.data b.data with _ | _
      · rw [charListLt_eq_of_not_lt habd hab] at hca
        rw [hca] at hbc
        exact hbc
      · rw [charListLt_trans hca habd] at hbc
        exact hbc⟩

instance : IsAntisymm String strLe :=
  ⟨fun a b hab hba => by
    unfold strLe at hab hba
    exact String.toList_inj.mp (charListLt_eq_of_not_lt hba hab)⟩

/-! ## Facts about the shared file listing -/

/-- The file list is a permutation of the matching directory entries. -/
theorem jsonFiles_perm (names : List String) :
    (jsonFiles names).Perm
      (names.filter fun f => endswith f ".json" || endswith f ".jsonc") :=
  (List.perm_insertionSort strLe names).filter _

/-- The file list is sorted in Python's string order. -/
theorem jsonFiles_sorted (names : List String) : (jsonFiles names).Sorted strLe :=
  List.Pairwise.filter _ (List.sorted_insertionSort strLe names)

/-- Directory listings with the same entries produce the same file list, in
whatever order the filesystem returned them. -/
theorem jsonFiles_eq_of_perm {names1 names2 : List String} (h : names1.Perm names2) :
    jsonFiles names1 = jsonFiles names2 :=
  List.eq_of_perm_of_sorted
    (((jsonFiles_perm names1).trans (h.filter _)).trans (jsonFiles_perm names2).symm)
    (jsonFiles_sorted names1) (jsonFiles_sorted names2)

/-! ## Facts about the validator -/

instance {ε α : Type} [DecidableEq ε] [DecidableEq α] : DecidableEq (Except ε α) := fun x y =>
  match x, y with
  | .error a, .error b => if h : a = b then .isTrue (by rw [h]) else .isFalse (by simp [h])
  | .error _, .ok _ => .isFalse (by simp)
  | .ok _, .error _ => .isFalse (by simp)
  | .ok a, .ok b => if h : a = b then .isTrue (by rw [h]) else .isFalse (by simp [h])

/-- A record that reached the decimals check (first four checks passed) is
judged by the decimals range alone. -/
theorem is_valid_file_past_logo (head : String → Option (Option String)) (data : RawRecord)
    (h1 : missingFields data = []) (h2 : data.chainId = some 143)
    (h3 : is_valid_address (data.address.getD "") = true)
    (h4 : is_url_image head (data.logoURI.getD "") = .ok true) :
    is_valid_file head (some data) =
      if data.decimals.getD 0 < 6 ∨ data.decimals.getD 0 > 36 then .ok (some .badDecimals)
      else .ok none := by
  simp [is_valid_file, h1, h2, h3, h4]

/-- C3: `is_valid_file` applies its checks in the fixed source order — missing
fields, chain id, address shape, logo probe, decimals range — and returns at
the first failing check, so a multiply-defective record is reported only for
the first defect in that order; it accepts exactly the records passing all
five checks (a raising logo probe propagates, likewise after the first three
checks passed). -/
theorem validator_check_order (head : String → Option (Option String)) (data : RawRecord) :
    (is_valid_file head (some data) = .ok none ↔
      missingFields data = [] ∧ data.chainId = some 143 ∧
      is_valid_address (data.address.getD "") = true ∧
      is_url_image head (data.logoURI.getD "") = .ok true ∧
      6 ≤ data.decimals.getD 0 ∧ data.decimals.getD 0 ≤ 36) ∧
    (missingFields data ≠ [] →
      is_valid_file head (some data) = .ok (some (.missingField (missingFields data)))) ∧
    (missingFields data = [] → data.chainId ≠ some 143 →
      is_valid_file head (some data) = .ok (some .wrongChain)) ∧
    (missingFields data = [] → data.chainId = some 143 →
      is_valid_address (data.address.getD "") = false →
      is_valid_file head (some data) = .ok (some .invalidAddress)) ∧
    (missingFields data = [] → data.chainId = some 143 →
      is_valid_address (data.address.getD "") = true →
      is_url_image head (data.logoURI.getD "") = .ok false →
      is_valid_file head (some data) = .ok (some .notImage)) ∧
    (missingFields data = [] → data.chainId = some 143 →
      is_valid_address (data.address.getD "") = true →
      is_url_image head (data.logoURI.getD "") = .error () →
      is_valid_file head (some data) = .error ()) ∧
    (missingFields data = [] → data.chainId = some 143 →
      is_valid_address (data.address.getD "") = true →
      is_url_image head (data.logoURI.getD "") = .ok true →
      (data.decimals.getD 0 < 6 ∨ data.decimals.getD 0 > 36) →
      is_valid_file head (some data) = .ok (some .badDecimals)) := by
  refine ⟨⟨fun h => ?_, fun h => ?_⟩, fun h1 => ?_, fun h1 h2 => ?_, fun h1 h2 h3 => ?_,
    fun h1 h2 h3 h4 => ?_, fun h1 h2 h3 h4 => ?_, fun h1 h2 h3 h4 h5 => ?_⟩
  · by_cases c1 : missingFields data = []
    on_goal 2 => simp [is_valid_file, c1] at h
    by_cases c2 : data.chainId = some 143
    on_goal 2 => simp [is_valid_file, c1, c2] at h
    rcases c3 : is_valid_address (data.address.getD "") with _ | _
    · simp [is_valid_file, c1, c2, c3] at h
    rcases c4 : is_url_image head (data.logoURI.getD "") with e | img
    · simp [is_valid_file, c1, c2, c3, c4] at h
    rcases img with _ | _
    · simp [is_valid_file, c1, c2, c3, c4] at h
    by_cases c5 : data.decimals.getD 0 < 6 ∨ data.decimals.getD 0 > 36
    · simp [is_valid_file, c1, c2, c3, c4, c5] at h
    · exact ⟨c1, c2, rfl, rfl, by omega, by omega⟩
  · obtain ⟨h1, h2, h3, h4, h5, h6⟩ := h
    rw [is_valid_file_past_logo head data h1 h2 h3 h4, if_neg (by omega)]
  · simp [is_valid_file, h1]
  · simp [is_valid_file, h1, h2]
  · simp [is_valid_file, h1, h2, h3]
  · simp [is_valid_file, h1, h2, h3, h4]
  · simp [is_valid_file, h1, h2, h3, h4]
  · rw [is_valid_file_past_logo head data h1 h2 h3 h4, if_pos h5]

/-- A record meeting all five checks, and the probe that reports `image/png`
for it. -/
def goodHead : String → Option (Option String) := fun _ => some (some "image/png")

/-- A staged record passing every check. -/
def goodRecord : RawRecord :=
  ⟨some 143, some "0x1234567890123456789012345678901234567890", some "Test",
   some "TST", some 18, some "https://x/logo.png"⟩

/-- The same record with another decimals value. -/
def recordWithDecimals (d : Int) : RawRecord :=
  { goodRecord with decimals := some d }

/-- C3 witness: the all-good record is accepted; making its chain id wrong and
its address malformed at the same time reports only the chain-id defect, the
first in the fixed order. -/
theorem validator_check_order_witness :
    is_valid_file goodHead (some goodRecord) = .ok none ∧
    is_valid_file goodHead
        (some { goodRecord with chainId := some 1, address := some "zzz" }) =
      .ok (some .wrongChain) :=
  ⟨(validator_check_order goodHead goodRecord).1.mpr (by decide),
   (validator_check_order goodHead _).2.2.1 (by decide) (by decide)⟩

/-- C7: past the first four checks, `is_valid_file` accepts exactly the
decimals values in the closed range 6..36 and otherwise reports the
out-of-range defect. -/
theorem validator_decimals_range (head : String → Option (Option String)) (data : RawRecord)
    (h1 : missingFields data = []) (h2 : data.chainId = some 143)
    (h3 : is_valid_address (data.address.getD "") = true)
    (h4 : is_url_image head (data.logoURI.getD "") = .ok true) :
    (is_valid_file head (some data) = .ok none ↔
      6 ≤ data.decimals.getD 0 ∧ data.decimals.getD 0 ≤ 36) ∧
    (is_valid_file head (some data) = .ok (some .badDecimals) ↔
      (data.decimals.getD 0 < 6 ∨ 36 < data.decimals.getD 0)) := by
  rw [is_valid_file_past_logo head data h1 h2 h3 h4]
  by_cases c : data.decimals.getD 0 < 6 ∨ data.decimals.getD 0 > 36
  · rw [if_pos c]
    refine ⟨⟨fun h => absurd h (by simp), fun h => absurd c (by omega)⟩,
      ⟨fun _ => by omega, fun _ => rfl⟩⟩
  · rw [if_neg c]
    refine ⟨⟨fun _ => by omega, fun _ => rfl⟩,
      ⟨fun h => absurd h (by simp), fun h => absurd h (by omega)⟩⟩

/-- C7 witness: decimals 5 and 37 are reported out of range, decimals 6 and 36
pass (the record is otherwise the all-good one). -/
theorem validator_decimals_range_witness :
    is_valid_file goodHead (some (recordWithDecimals 5)) = .ok (some .badDecimals) ∧
    is_valid_file goodHead (some (recordWithDecimals 6)) = .ok none ∧
    is_valid_file goodHead (some (recordWithDecimals 36)) = .ok none ∧
    is_valid_file goodHead (some (recordWithDecimals 37)) = .ok (some .badDecimals) :=
  ⟨(validator_decimals_range goodHead _ (by decide) (by decide) (by decide) (by decide)).2.mpr
      (by decide),
   (validator_decimals_range goodHead _ (by decide) (by decide) (by decide) (by decide)).1.mpr
      (by decide),
   (validator_decimals_range goodHead _ (by decide) (by decide) (by decide) (by decide)).1.mpr
      (by decide),
   (validator_decimals_range goodHead _ (by decide) (by decide) (by decide) (by decide)).2.mpr
      (by decide)⟩

/-! ## The validation driver -/

/-- When no file's validation raises, the loop reports every file in order and
the run ends with status 0. -/
theorem runValidation_ok (head : String → Option (Option String))
    (content : String → Option RawRecord) :
    ∀ fs : List String, (∀ f ∈ fs, is_valid_file head (content f) ≠ .error ()) →
      runValidation head content fs =
        (0, fs.map fun f => (f, validation_report (is_valid_file head (content f)))) := by
  intro fs
  induction fs with
  | nil => intro _; rfl
  | cons f rest ih =>
    intro hall
    rw [runValidation]
    rcases hf : is_valid_file head (content f) with e | failure
    · cases e
      exact absurd hf (hall f (by simp))
    · rw [ih fun g hg => hall g (by simp [hg])]
      cases failure <;> simp [validation_report, hf]

/-- C4 counterexample: a run whose only staged record fails validation
(decimals 3, reported invalid) exits with status 0, the same status as a run
that finds no input files at all — the exit status does not distinguish
"values were invalid" from "nothing to do". -/
theorem exit_status_counterexample :
    (validate_main goodHead (some ["bad.json"]) fun _ => some (recordWithDecimals 3)).2 =
      [("bad.json", false)] ∧
    (validate_main goodHead (some ["bad.json"]) fun _ => some (recordWithDecimals 3)).1 = 0 ∧
    (validate_main goodHead (some []) fun _ => some (recordWithDecimals 3)).1 = 0 := by
  decide

/-- C4 amended: the exit status distinguishes only the fatal setup error (the
`mainnet` directory missing, status 1) from runs that had a directory; both a
run with no input files and a run that finds validation failures exit with
status 0 (failures are signalled in the per-file output, not the exit status).
Stated for runs in which no logo probe raises; a raising probe crashes the
process (status 1) regardless of validation results. -/
theorem exit_status_spec (head : String → Option (Option String))
    (content : String → Option RawRecord) (names : List String)
    (hnoraise : ∀ f ∈ jsonFiles names, is_valid_file head (content f) ≠ .error ()) :
    (validate_main head none content).1 = 1 ∧
    (validate_main head (some names) content).1 = 0 := by
  refine ⟨rfl, ?_⟩
  rw [validate_main]
  by_cases he : (jsonFiles names).isEmpty
  · rw [if_pos he]
  · rw [if_neg he, runValidation_ok head content _ hnoraise]

/-- C4 and C5 amended witness head: the probe that answers nothing (the HTTP
request raises, as for an unreachable URL). -/
def unreachableHead : String → Option (Option String) := fun _ => none

/-- C5 counterexample: with every logo URL unreachable, the run over two
staged records aborts inside the first record's probe with an uncaught
exception: the second record — which the same run validates and reports fine
when the probe answers — is neither validated nor reported. -/
theorem batch_report_counterexample :
    validate_main unreachableHead (some ["a.json", "b.json"]) (fun _ => some goodRecord) =
      (1, []) ∧
    validate_main goodHead (some ["a.json", "b.json"]) (fun _ => some goodRecord) =
      (0, [("a.json", true), ("b.json", true)]) := by
  decide

/-- C5 amended: validation failures that are reported (parse failure, missing
fields, wrong chain id, malformed address, wrong logo content-type,
out-of-range decimals) do not halt the run: when no record's logo probe
raises, every staged file is validated and reported in order, whatever mix of
valid and invalid records the directory holds. An unreachable logo URL (or a
response without content-type header) instead raises an uncaught exception
that aborts the run before the remaining records are examined. -/
theorem batch_report_all (head : String → Option (Option String))
    (content : String → Option RawRecord) (names : List String)
    (hnoraise : ∀ f ∈ jsonFiles names, is_valid_file head (content f) ≠ .error ()) :
    validate_main head (some names) content =
      (0, (jsonFiles names).map fun f =>
        (f, validation_report (is_valid_file head (content f)))) := by
  rw [validate_main]
  by_cases he : (jsonFiles names).isEmpty
  · rw [if_pos he, List.isEmpty_iff.mp he]
    rfl
  · rw [if_neg he]
    exact runValidation_ok head content _ hnoraise

/-! ## The address check and casing -/

/-- C6 counterexample: the all-lowercase and the all-uppercase casing of one
and the same hexadecimal payload are both accepted by `is_valid_address` — the
validator does not single out one canonical checksummed casing. -/
theorem address_casing_counterexample :
    is_valid_address "0xaaaaaaaaaaaaaaaaaaaaaaaaaaaaaaaaaaaaaaaa" = true ∧
    is_valid_address "0xAAAAAAAAAAAAAAAAAAAAAAAAAAAAAAAAAAAAAAAA" = true ∧
    ("0xaaaaaaaaaaaaaaaaaaaaaaaaaaaaaaaaaaaaaaaa" : String) ≠
      "0xAAAAAAAAAAAAAAAAAAAAAAAAAAAAAAAAAAAAAAAA" := by
  decide

/-- Lowercasing keeps a character inside the accepted hex alphabet. -/
theorem hex_toLower_closed : ∀ c ∈ HEX_CHARS, HEX_CHARS.contains c.toLower = true := by
  decide

/-- Characterization of `is_valid_address` in terms of the underlying character sequence. -/
theorem is_valid_address_mk (l : List Char) :
    is_valid_address ⟨l⟩ = true ↔
      l.take 2 = ['0', 'x'] ∧ l.length = 42 ∧
        ∀ c ∈ l.drop 2, HEX_CHARS.contains c = true := by
  simp only [is_valid_address, Bool.and_eq_true, beq_iff_eq, String.take_eq,
    String.drop_eq, List.all_eq_true, String.ext_iff]
  constructor
  · rintro ⟨⟨h1, h2⟩, h3⟩
    exact ⟨h1, h2, h3⟩
  · rintro ⟨h1, h2, h3⟩
    exact ⟨⟨h1, h2⟩, h3⟩

/-- C6 amended: the address check is insensitive to the casing of the
hexadecimal payload — lowercasing an accepted address string yields another
accepted address string, so no single canonical casing is singled out (the
canonical checksummed form is produced by the fetch path's
`Web3.to_checksum_address`, not enforced here). -/
theorem address_check_case_insensitive (l : List Char)
    (h : is_valid_address ⟨l⟩ = true) :
    is_valid_address ⟨l.map Char.toLower⟩ = true := by
  rw [is_valid_address_mk] at h ⊢
  obtain ⟨hpre, hlen, hhex⟩ := h
  refine ⟨?_, by simpa using hlen, ?_⟩
  · rw [← List.map_take, hpre]
    rfl
  · intro c hc
    rw [← List.map_drop] at hc
    obtain ⟨d, hd, rfl⟩ := List.mem_map.mp hc
    have hdmem : d ∈ HEX_CHARS := by
      have := hhex d hd
      simpa [List.contains] using this
    exact hex_toLower_closed d hdmem

/-- C6 amended witness: lowercasing the accepted mixed-case address
`0xAbCdEf...` yields another accepted address. -/
theorem address_check_case_insensitive_witness :
    is_valid_address ⟨"0xAbCdEf1234567890aBcDeF1234567890abcdef12".data.map Char.toLower⟩ =
      true :=
  address_check_case_insensitive "0xAbCdEf1234567890aBcDeF1234567890abcdef12".data
    (by decide)

/-! ## The aggregator -/

/-- When every listed file parses, the collection loop returns all parsed
records in file order. -/
theorem collectTokens_ok {T : Type} (content : String → Option T) :
    ∀ fs : List String, (∀ f ∈ fs, (content f).isSome) →
      collectTokens content fs = .ok (fs.filterMap content) := by
  intro fs
  induction fs with
  | nil => intro _; rfl
  | cons f rest ih =>
    intro hall
    obtain ⟨t, ht⟩ := Option.isSome_iff_exists.mp (hall f (by simp))
    rw [collectTokens, ht, ih fun g hg => hall g (by simp [hg])]
    simp [List.filterMap_cons, ht, Except.map]

/-- If some listed file fails to parse, the collection loop aborts at the
first such file, naming it. -/
theorem collectTokens_fails {T : Type} (content : String → Option T) :
    ∀ (fs : List String) (f : String), f ∈ fs → content f = none →
      ∃ g, g ∈ fs ∧ content g = none ∧ collectTokens content fs = .error g := by
  intro fs
  induction fs with
  | nil => intro f hf; cases hf
  | cons a rest ih =>
    intro f hf hnone
    rcases ha : content a with _ | t
    · exact ⟨a, by simp, ha, by rw [collectTokens, ha]⟩
    · rcases List.mem_cons.mp hf with rfl | hfr
      · rw [ha] at hnone
        cases hnone
      · obtain ⟨g, hg, hgn, hge⟩ := ih f hfr hnone
        refine ⟨g, by simp [hg], hgn, ?_⟩
        rw [collectTokens, ha, hge]
        rfl

/-- C8: aggregation is all-or-nothing: if any staged file in the listing fails
to parse, the run stops at the first such file, reports it, and writes no
registry document at all — no partial output with the records parsed so far. -/
theorem aggregation_all_or_nothing {T : Type} (names : List String)
    (content : String → Option T) (now : String)
    (f : String) (hf : f ∈ jsonFiles names) (hfail : content f = none) :
    (∃ g, g ∈ jsonFiles names ∧ content g = none ∧
      generate_main (some names) content now = .readFailure g) ∧
    ∀ registry, generate_main (some names) content now ≠ .written registry := by
  obtain ⟨g, hg, hgn, hge⟩ := collectTokens_fails content (jsonFiles names) f hf hfail
  have hne : ¬(jsonFiles names).isEmpty = true := by
    simp only [List.isEmpty_iff]
    exact List.ne_nil_of_mem hf
  have hmain : generate_main (some names) content now = .readFailure g := by
    rw [generate_main, if_neg hne, hge]
  refine ⟨⟨g, hg, hgn, hmain⟩, fun registry h => ?_⟩
  rw [hmain] at h
  cases h

/-- C8 witness: of two staged files, `b.json` fails to parse: the run reports
a failing file and writes nothing, although `a.json` parsed fine. -/
theorem aggregation_all_or_nothing_witness :
    (∃ g, g ∈ jsonFiles ["a.json", "b.json"] ∧
      (fun f => if f = "a.json" then some 1 else none : String → Option Nat) g = none ∧
      generate_main (some ["a.json", "b.json"])
        (fun f => if f = "a.json" then some 1 else none) "2024" = .readFailure g) ∧
    ∀ registry, generate_main (some ["a.json", "b.json"])
      (fun f => if f = "a.json" then some 1 else none : String → Option Nat) "2024" ≠
        .written registry :=
  aggregation_all_or_nothing ["a.json", "b.json"] _ "2024" "b.json" (by decide) (by decide)

/-- C9: deterministic aggregation: when every staged file parses, the output
token list is the records in lexicographic filename order — independent of the
order the filesystem listed the directory — and two runs over identical
directory contents produce documents equal in name, logoURI, keywords, tokens
and version (the fields, in that fixed order, of one `Registry` value),
differing only in the timestamp. -/
theorem aggregation_deterministic {T : Type} (names1 names2 : List String)
    (content : String → Option T) (t1 t2 : String)
    (hperm : names1.Perm names2)
    (hne : jsonFiles names1 ≠ [])
    (hparse : ∀ f ∈ jsonFiles names1, (content f).isSome) :
    generate_main (some names1) content t1 =
      .written ⟨TOKENLIST_NAME, TOKENLIST_LOGO, TOKENLIST_KEYWORDS, t1,
        (jsonFiles names1).filterMap content, TOKENLIST_VERSION⟩ ∧
    generate_main (some names2) content t2 =
      .written ⟨TOKENLIST_NAME, TOKENLIST_LOGO, TOKENLIST_KEYWORDS, t2,
        (jsonFiles names1).filterMap content, TOKENLIST_VERSION⟩ ∧
    (jsonFiles names1).Sorted strLe ∧
    (jsonFiles names1).Perm
      (names1.filter fun f => endswith f ".json" || endswith f ".jsonc") := by
  have heq := jsonFiles_eq_of_perm hperm
  have hne1 : ¬(jsonFiles names1).isEmpty = true := by
    simp only [List.isEmpty_iff]
    exact hne
  have hne2 : ¬(jsonFiles names2).isEmpty = true := by
    rw [← heq]
    exact hne1
  refine ⟨?_, ?_, jsonFiles_sorted names1, jsonFiles_perm names1⟩
  · rw [generate_main, if_neg hne1, collectTokens_ok content _ hparse]
  · rw [generate_main, if_neg hne2, ← heq, collectTokens_ok content _ hparse]

/-- C9 witness: the directory holding `AAA.json` and `ZZZ.json`, listed by the
filesystem in either order, aggregates to `[AAA-record, ZZZ-record]`; the two
runs (timestamps `t1`, `t2`) agree on every other field. -/
theorem aggregation_deterministic_witness :
    generate_main (some ["ZZZ.json", "AAA.json"])
        (fun f => if f = "AAA.json" then some 1 else some 2 : String → Option Nat) "t1" =
      .written ⟨TOKENLIST_NAME, TOKENLIST_LOGO, TOKENLIST_KEYWORDS, "t1", [1, 2],
        TOKENLIST_VERSION⟩ ∧
    generate_main (some ["AAA.json", "ZZZ.json"])
        (fun f => if f = "AAA.json" then some 1 else some 2 : String → Option Nat) "t2" =
      .written ⟨TOKENLIST_NAME, TOKENLIST_LOGO, TOKENLIST_KEYWORDS, "t2", [1, 2],
        TOKENLIST_VERSION⟩ := by
  obtain ⟨h1, h2, -, -⟩ := aggregation_deterministic ["ZZZ.json", "AAA.json"]
    ["AAA.json", "ZZZ.json"] (fun f => if f = "AAA.json" then some 1 else some 2) "t1" "t2"
    (List.Perm.swap "AAA.json" "ZZZ.json" []) (by decide) (by decide)
  constructor
  · rw [h1]
    rfl
  · rw [h2]
    rfl

/-- C4 amended witness: with the probe answering image/png everywhere, the
missing-directory run exits 1 while the run over one invalid record exits 0. -/
theorem exit_status_spec_witness :
    (validate_main goodHead none fun _ => some (recordWithDecimals 3)).1 = 1 ∧
    (validate_main goodHead (some ["bad.json"]) fun _ => some (recordWithDecimals 3)).1 = 0 :=
  exit_status_spec goodHead (fun _ => some (recordWithDecimals 3)) ["bad.json"] (by decide)

/-- C5 amended witness: a run over one invalid record (decimals 3) and one
valid record, with every probe answering, reports both files. -/
theorem batch_report_all_witness :
    validate_main goodHead (some ["bad.json", "good.json"])
        (fun f => if f = "bad.json" then some (recordWithDecimals 3) else some goodRecord) =
      (0, [("bad.json", false), ("good.json", true)]) := by
  rw [batch_report_all goodHead
    (fun f => if f = "bad.json" then some (recordWithDecimals 3) else some goodRecord)
    ["bad.json", "good.json"] (by decide)]
  rfl
